import Mathlib

/-!
Verification of the portfolio scripts (script.js, part_000, part_001).

The JavaScript sources are shallowly embedded: DOM-carried state becomes
explicit record types, event handlers become state-transition functions, and
browser callbacks (IntersectionObserver notifications, resize events) become
explicit event lists folded over the transition functions.  Numeric values
that the scripts manipulate as JS numbers are modelled as rationals (ℚ);
canvas pixel dimensions, which the scripts obtain as integral element sizes,
are modelled as naturals.
-/

namespace Portfolio

/- ============================================================
   Scroll reveal — script.js `ScrollReveal` and part_001 `initReveal`
   ============================================================ -/

/-- CONFIG.REVEAL_THRESHOLD (script.js line 58): 0.15. -/
def REVEAL_THRESHOLD : ℚ := 15 / 100

/-- CONFIG.REVEAL_MARGIN (script.js line 59). -/
def REVEAL_MARGIN : String := "-100px"

/-- Per-element state of the script.js reveal machinery: whether the `revealed`
class is on the element, and whether the IntersectionObserver still observes
it. -/
structure RevealElem where
  revealed : Bool
  observed : Bool
  deriving DecidableEq

/-- State of an element right after `ScrollReveal.initObserver` registered it:
no `revealed` class yet, and `observer.observe(element)` has been called. -/
def initElem : RevealElem := { revealed := false, observed := true }

/-- One IntersectionObserver callback entry for one element, from
`ScrollReveal.initObserver` (script.js lines 2052–2070): if the entry is
intersecting, `Utils.addClass(entry.target, 'revealed')` and
`observer.unobserve(entry.target)` run.  The observer delivers entries only
for targets it still observes, hence the `observed` guard. -/
def observerStep (e : RevealElem) (isIntersecting : Bool) : RevealElem :=
  if e.observed && isIntersecting then { revealed := true, observed := false } else e

/-- Fold a sequence of callback entries for one element. -/
def runObserver (e : RevealElem) (events : List Bool) : RevealElem :=
  events.foldl observerStep e

/-- Number of times the element transitions into the revealed state along a
trace of callback entries. -/
def countReveals (e : RevealElem) : List Bool → Nat
  | [] => 0
  | ev :: rest =>
    let e2 := observerStep e ev
    (if e2.revealed && !e.revealed then 1 else 0) + countReveals e2 rest

/-- Per-element state of the part_001 reveal machinery (`initReveal`, lines
187–204): inline `opacity` and `translateY` styles plus observation status. -/
structure RevealElem2 where
  opacity : ℚ
  translateY : ℚ
  observed : Bool
  deriving DecidableEq

/-- State set by `initReveal` before observing: `el.style.opacity = 0`,
`el.style.transform = 'translateY(12px)'`, then `obs.observe(el)`. -/
def initElem2 : RevealElem2 := { opacity := 0, translateY := 12, observed := true }

/-- One observer callback entry in part_001's `initReveal`: on intersection the
element gets `opacity = 1`, `transform = 'translateY(0)'`, and
`o.unobserve(entry.target)` runs. -/
def revealStep (e : RevealElem2) (isIntersecting : Bool) : RevealElem2 :=
  if e.observed && isIntersecting then { opacity := 1, translateY := 0, observed := false } else e

/-- Fold a sequence of callback entries for one part_001 element. -/
def runReveal (e : RevealElem2) (events : List Bool) : RevealElem2 :=
  events.foldl revealStep e

/-- Which code path `ScrollReveal.init` (script.js lines 2031–2046) takes. -/
inductive RevealMode where
  | observer
  | scrollFallback
  | noElements
  deriving DecidableEq

/-- The browser environment visible to `ScrollReveal.init`: the OS-level
`prefers-reduced-motion` media-query state, whether `IntersectionObserver`
exists (`STATE.features.intersectionObserver`), and how many `.reveal`
elements the page has. -/
structure Browser where
  prefersReducedMotion : Bool
  hasIntersectionObserver : Bool
  revealElemCount : Nat
  deriving DecidableEq

/-- `ScrollReveal.init`: returns early when no `.reveal` elements exist, else
dispatches on `STATE.features.intersectionObserver`.  Nothing in script.js or
part_001 ever queries `prefers-reduced-motion` (the `matchMedia` calls in the
sources are for `(hover: hover)` at script.js line 1391 and for
`prefers-color-scheme` at line 2955), so the `prefersReducedMotion` field is
not read here. -/
def scrollRevealInit (b : Browser) : RevealMode :=
  if b.revealElemCount = 0 then RevealMode.noElements
  else if b.hasIntersectionObserver then RevealMode.observer
  else RevealMode.scrollFallback

/- ============================================================
   Feature setup on missing DOM — script.js `Navigation.init`,
   part_000 scroll-arrow wiring
   ============================================================ -/

/-- Outcome of running a feature's setup code. -/
inductive SetupOutcome where
  | skipped
  | wired
  | typeError
  deriving DecidableEq

/-- `Navigation.init` (script.js lines 1572–1589): looks up `#mainNav` and, if
absent, logs a warning and returns early; otherwise binds its events. -/
def navigationInit (navPresent : Bool) : SetupOutcome :=
  if navPresent then SetupOutcome.wired else SetupOutcome.skipped

/-- Scroll-arrow wiring in part_000 (lines 1–7):
`document.getElementById("scrollArrow")` followed unconditionally by
`scrollArrow.addEventListener(...)`.  When the element is absent,
`getElementById` yields `null` and the `addEventListener` call throws a
`TypeError`; there is no null check and no early return. -/
def scrollArrowSetup (arrowPresent : Bool) : SetupOutcome :=
  if arrowPresent then SetupOutcome.wired else SetupOutcome.typeError

/- ============================================================
   Mobile menu — script.js `Navigation.toggleMenu`
   ============================================================ -/

/-- The pieces of DOM/global state touched by `Navigation.toggleMenu`
(script.js lines 1701–1719): `STATE.isMenuOpen`, the `active` class on the
toggle button and on the links container, the toggle button's `aria-expanded`
attribute (a boolean attribute value), and `document.body.style.overflow`. -/
structure NavState where
  isMenuOpen : Bool
  toggleActive : Bool
  linksActive : Bool
  ariaExpanded : Bool
  bodyOverflow : String
  deriving DecidableEq

/-- `Navigation.toggleMenu`: negates `STATE.isMenuOpen`, toggles the `active`
class on both the toggle button and the links container
(`Utils.toggleClass` with no `force` argument), sets `aria-expanded` to the
new flag, and sets body overflow to `'hidden'` when opening and `'auto'` when
closing. -/
def toggleMenu (s : NavState) : NavState :=
  let isOpen := !s.isMenuOpen
  { isMenuOpen := isOpen
    toggleActive := !s.toggleActive
    linksActive := !s.linksActive
    ariaExpanded := isOpen
    bodyOverflow := if isOpen then "hidden" else "auto" }

/- ============================================================
   HTML escaping — part_001 `escapeHtml` (line 207)
   ============================================================ -/

/-- The double-quote character, written by code point. -/
def quoteChar : Char := Char.ofNat 34

/-- The single-quote character, written by code point. -/
def aposChar : Char := Char.ofNat 39

/-- Replacement applied to one character by part_001's
`String(s || '').replace(/[&<>"']/g, c => map[c])`: each of the five special
characters maps to its HTML entity, all others pass through. -/
def escChar (c : Char) : List Char :=
  if c = '&' then "&amp;".data
  else if c = '<' then "&lt;".data
  else if c = '>' then "&gt;".data
  else if c = quoteChar then "&quot;".data
  else if c = aposChar then "&#39;".data
  else [c]

/-- `escapeHtml(s)` from part_001.  A JS `null`/`undefined` argument is
modelled as `none`; `s || ''` turns it into the empty string before the
character-wise replacement. -/
def escapeHtml : Option String → String
  | none => ""
  | some s => String.mk (s.data.flatMap escChar)

/-- Whether the first list is an initial segment of the second. -/
def beginsWith : List Char → List Char → Bool
  | [], _ => true
  | _ :: _, [] => false
  | a :: as, b :: bs => a == b && beginsWith as bs

/-- Whether a character sequence begins with the tail of one of the five
entity encodings produced by `escapeHtml` (the part after the `&`):
`amp;`, `lt;`, `gt;`, `quot;` or `#39;`. -/
def startsEntity (post : List Char) : Bool :=
  beginsWith ['a', 'm', 'p', ';'] post || beginsWith ['l', 't', ';'] post ||
  beginsWith ['g', 't', ';'] post || beginsWith ['q', 'u', 'o', 't', ';'] post ||
  beginsWith ['#', '3', '9', ';'] post

/-- Scans a character list and checks that every ampersand in it is
immediately followed by the tail of one of the five entity encodings. -/
def ampWF : List Char → Bool
  | [] => true
  | c :: rest => (if c = '&' then startsEntity rest else true) && ampWF rest

/- ============================================================
   Projects — part_001 fetch handler and `renderProjects`
   ============================================================ -/

/-- One entry of `projects.json` / the inlined fallback array (part_001):
`{ id, title, desc, tech, github, demo }`. -/
structure Project where
  id : String
  title : String
  desc : String
  tech : String
  github : String
  demo : String
  deriving DecidableEq

/-- The visible/attribute content of one `.project-card` built by
`renderProjects`: the HTML-escaped title, description, tech line and data-id,
plus the link targets (`p.github || '#'`, `p.demo || '#'`; JS `||` on strings
falls through exactly when the string is empty). -/
structure Card where
  title : String
  desc : String
  tech : String
  dataId : String
  githubHref : String
  demoHref : String
  deriving DecidableEq

/-- Builds the card for one project, as the loop body of `renderProjects`
does via the template literal. -/
def buildCard (p : Project) : Card :=
  { title := escapeHtml (some p.title)
    desc := escapeHtml (some p.desc)
    tech := escapeHtml (some p.tech)
    dataId := escapeHtml (some p.id)
    githubHref := if p.github = "" then "#" else p.github
    demoHref := if p.demo = "" then "#" else p.demo }

/-- `renderProjects(list)` (part_001 lines 68–108): clears the grid
(`projectsGrid.innerHTML = ''`) and appends `Math.max(9, list.length)` cards,
card `i` built from `list[i % list.length]`.  On an empty list the loop body
evaluates `list[NaN]` to `undefined` and throws a TypeError reading
`p.title`; the `none` result models that throw.  The returned list is the
entire grid content (the old content was discarded). -/
def renderProjects (list : List Project) : Option (List Card) :=
  if h : list = [] then none
  else
    some ((List.range (max 9 list.length)).map fun i =>
      buildCard (list.get ⟨i % list.length, Nat.mod_lt i (List.length_pos.mpr h)⟩))

/-- The inlined fallback array in part_001's `fetch('projects.json')` catch
handler (lines 54–66). -/
def fallback : List Project :=
  [{ id := "algorithm-visual-playground", title := "Algorithm Visual Playground",
     desc := "A visual tool that demonstrates how core algorithms work through step‑by‑step animations. Includes sorting, recursion, BFS/DFS, and pathfinding. Focuses on clarity and algorithmic thinking.",
     tech := "Python / JavaScript; Algorithms; Data Structures; Git; VS Code",
     github := "", demo := "" },
   { id := "plagiarism-checker", title := "Plagiarism Checker",
     desc := "A text‑comparison system that detects similarity between documents using Jaccard, Cosine Similarity, and sequence matching. Preprocesses text and calculates similarity scores.",
     tech := "Python; difflib; SQL (optional); Git; VS Code",
     github := "", demo := "" },
   { id := "quiz-app", title := "Quiz App",
     desc := "A multiple‑choice quiz application with scoring, results, and a question bank. Demonstrates OOP concepts and structured programming.",
     tech := "Python / Java; OOP; Git; VS Code",
     github := "", demo := "" },
   { id := "student-study-analyzer", title := "Student Study Analyzer",
     desc := "An analytics tool that tracks study sessions and identifies productivity patterns (hours, consistency, subject focus) to provide actionable insights.",
     tech := "Python; CSV/JSON; Git; VS Code",
     github := "", demo := "" }]

/-- Result of `fetch('projects.json').then(res => res.json())`: `failure` for
a network or JSON-parse rejection; `success projects` for a parsed body, where
`projects` is `data.projects` (`none` when the key is missing, which makes
`renderProjects(undefined)` throw). -/
inductive FetchResult where
  | success (projects : Option (List Project))
  | failure
  deriving DecidableEq

/-- The part_001 load chain
`fetch(...).then(res => res.json()).then(data => renderProjects(data.projects)).catch(() => renderProjects(fallback))`:
the catch handler fires on fetch/parse rejection and also when the `then`
handler's `renderProjects` call itself throws, and renders the fallback. -/
def loadProjects : FetchResult → Option (List Card)
  | FetchResult.failure => renderProjects fallback
  | FetchResult.success none => renderProjects fallback
  | FetchResult.success (some list) =>
    match renderProjects list with
    | some cards => some cards
    | none => renderProjects fallback

/- ============================================================
   localStorage wrapper — script.js `Utils.storage` (lines 946–1021)
   ============================================================ -/

/-- The fallible environment `Utils.storage` runs against: `JSON.stringify`
and `JSON.parse` (both can throw), and the three `localStorage` primitives
(all can throw, e.g. quota or privacy-mode errors).  `getItem` yields `none`
for a JS `null`. -/
structure StorageEnv (α : Type) where
  stringify : α → Except String String
  parse : String → Except String α
  setItem : String → String → Except String Unit
  getItem : String → Except String (Option String)
  removeItem : String → Except String Unit

/-- `Utils.storage.set(key, value)`: serializes and stores inside try/catch;
any throw is logged and turned into `false`. -/
def storageSet {α : Type} (env : StorageEnv α) (key : String) (value : α) : Bool :=
  match env.stringify value with
  | Except.error _ => false
  | Except.ok serialized =>
    match env.setItem key serialized with
    | Except.ok _ => true
    | Except.error _ => false

/-- `Utils.storage.get(key, defaultValue)`: reads inside try/catch and returns
`item ? JSON.parse(item) : defaultValue`; a `null` or empty-string item is
falsy, and any throw (from `getItem` or `JSON.parse`) yields the default. -/
def storageGet {α : Type} (env : StorageEnv α) (key : String) (defaultValue : α) : α :=
  match env.getItem key with
  | Except.error _ => defaultValue
  | Except.ok none => defaultValue
  | Except.ok (some item) =>
    if item = "" then defaultValue
    else
      match env.parse item with
      | Except.ok v => v
      | Except.error _ => defaultValue

/-- `Utils.storage.remove(key)`: removes inside try/catch; any throw is logged
and turned into `false`. -/
def storageRemove {α : Type} (env : StorageEnv α) (key : String) : Bool :=
  match env.removeItem key with
  | Except.ok _ => true
  | Except.error _ => false

/-- A storage environment whose `localStorage` primitives all throw (as in a
privacy mode or over-quota browser), used to exercise the error paths of the
wrapper. -/
def failingStorage : StorageEnv Nat :=
  { stringify := fun n => Except.ok (toString n)
    parse := fun _ => Except.error "parse error"
    setItem := fun _ _ => Except.error "QuotaExceededError"
    getItem := fun _ => Except.error "SecurityError"
    removeItem := fun _ => Except.error "SecurityError" }

/- ============================================================
   Canvas particles — script.js `CanvasAnimations` / `Particle`
   ============================================================ -/

/-- CONFIG.PARTICLE_COUNT (script.js line 68). -/
def PARTICLE_COUNT : Nat := 50

/-- CONFIG.PARTICLE_MAX_SPEED (script.js line 70): 0.5. -/
def PARTICLE_MAX_SPEED : ℚ := 1 / 2

/-- `Utils.random(min, max)` = `Math.random() * (max - min) + min`, with the
`Math.random()` draw `r ∈ [0, 1)` made explicit. -/
def jsRandom (r lo hi : ℚ) : ℚ := r * (hi - lo) + lo

/-- `Utils.clamp(value, min, max)` = `Math.min(Math.max(value, min), max)`
(script.js line 647). -/
def clamp (value lo hi : ℚ) : ℚ := min (max value lo) hi

/-- A canvas with its pixel dimensions. -/
structure Canvas where
  width : ℚ
  height : ℚ
  deriving DecidableEq

/-- The `Particle` class fields (script.js lines 1980–2013). -/
structure Particle where
  x : ℚ
  y : ℚ
  vx : ℚ
  vy : ℚ
  radius : ℚ
  opacity : ℚ
  deriving DecidableEq

/-- `Particle.reset(canvas)`: six `Utils.random` draws, with the underlying
`Math.random()` values `r1 … r6` passed explicitly. -/
def particleReset (c : Canvas) (r1 r2 r3 r4 r5 r6 : ℚ) : Particle :=
  { x := jsRandom r1 0 c.width
    y := jsRandom r2 0 c.height
    vx := jsRandom r3 (-PARTICLE_MAX_SPEED) PARTICLE_MAX_SPEED
    vy := jsRandom r4 (-PARTICLE_MAX_SPEED) PARTICLE_MAX_SPEED
    radius := jsRandom r5 1 3
    opacity := jsRandom r6 (1 / 10) (1 / 2) }

/-- `Particle.update(canvas)`: advance by the velocity, negate a velocity
component on leaving the canvas, then clamp the position back into
`[0, width] × [0, height]`. -/
def particleUpdate (p : Particle) (c : Canvas) : Particle :=
  let x := p.x + p.vx
  let y := p.y + p.vy
  let vx := if x < 0 ∨ x > c.width then -p.vx else p.vx
  let vy := if y < 0 ∨ y > c.height then -p.vy else p.vy
  { p with x := clamp x 0 c.width, y := clamp y 0 c.height, vx := vx, vy := vy }

/-- The particle-canvas invariant claimed for `Particle`: the position lies
inside the canvas bounds. -/
def inBounds (c : Canvas) (p : Particle) : Prop :=
  0 ≤ p.x ∧ p.x ≤ c.width ∧ 0 ≤ p.y ∧ p.y ≤ c.height

/-- The state owned by `CanvasAnimations.initParticles`: the canvas and
`STATE.particles`. -/
structure ParticleSystem where
  canvas : Canvas
  particles : List Particle
  deriving DecidableEq

/-- `CanvasAnimations.initParticles` (script.js lines 1788–1810): sizes the
canvas and pushes `CONFIG.PARTICLE_COUNT` particles, each constructed via
`Particle.reset`; `rng` supplies the `Math.random()` stream (six draws per
particle). -/
def initParticles (c : Canvas) (rng : Nat → ℚ) : ParticleSystem :=
  { canvas := c
    particles := (List.range PARTICLE_COUNT).map fun i =>
      particleReset c (rng (6 * i)) (rng (6 * i + 1)) (rng (6 * i + 2))
        (rng (6 * i + 3)) (rng (6 * i + 4)) (rng (6 * i + 5)) }

/-- The debounced resize handler registered by `initParticles`: it calls only
`this.resizeCanvas(canvas)`, which sets the canvas dimensions to the viewport;
`STATE.particles` is not touched. -/
def particlesOnResize (s : ParticleSystem) (viewport : Canvas) : ParticleSystem :=
  { s with canvas := viewport }

/- ============================================================
   Galaxy scene — part_001 `createScene` / `resize`
   ============================================================ -/

/-- `STAR_COUNT` in part_001's `createScene`:
`Math.max(80, Math.floor((w*h)/9000))` (integral canvas dimensions). -/
def starCount (w h : Nat) : Nat := max 80 (w * h / 9000)

/-- `NEBULA_COUNT` in part_001's `createScene`:
`Math.max(3, Math.floor((w*h)/200000))`. -/
def nebulaCount (w h : Nat) : Nat := max 3 (w * h / 200000)

/-- One star pushed by `createScene`. -/
structure Star where
  x : ℚ
  y : ℚ
  r : ℚ
  tw : ℚ
  hue : ℚ
  alphaBase : ℚ
  deriving DecidableEq

/-- One nebula blob pushed by `createScene`. -/
structure Nebula where
  x : ℚ
  y : ℚ
  r : ℚ
  hue : ℚ
  alpha : ℚ
  vx : ℚ
  vy : ℚ
  deriving DecidableEq

/-- The star built at loop index `i` by `createScene`, with `rng` supplying
the `Math.random()` stream (six draws per star). -/
def mkStar (w h : Nat) (rng : Nat → ℚ) (i : Nat) : Star :=
  { x := jsRandom (rng (6 * i)) 0 (w : ℚ)
    y := jsRandom (rng (6 * i + 1)) 0 (h : ℚ)
    r := jsRandom (rng (6 * i + 2)) (2 / 5) (9 / 5)
    tw := jsRandom (rng (6 * i + 3)) (1 / 50) (3 / 25)
    hue := jsRandom (rng (6 * i + 4)) 200 320
    alphaBase := jsRandom (rng (6 * i + 5)) (2 / 5) 1 }

/-- The nebula built at loop index `i` by `createScene` (seven draws per
nebula). -/
def mkNebula (w h : Nat) (rng : Nat → ℚ) (i : Nat) : Nebula :=
  { x := jsRandom (rng (7 * i)) (-(w : ℚ) * (1 / 5)) ((w : ℚ) * (6 / 5))
    y := jsRandom (rng (7 * i + 1)) (-(h : ℚ) * (1 / 5)) ((h : ℚ) * (6 / 5))
    r := jsRandom (rng (7 * i + 2)) (min (w : ℚ) (h : ℚ) * (1 / 4)) (min (w : ℚ) (h : ℚ) * (3 / 5))
    hue := jsRandom (rng (7 * i + 3)) 240 320
    alpha := jsRandom (rng (7 * i + 4)) (3 / 50) (9 / 50)
    vx := jsRandom (rng (7 * i + 5)) (-(1 / 50)) (1 / 50)
    vy := jsRandom (rng (7 * i + 6)) (-(1 / 100)) (1 / 100) }

/-- The decorative shape arrays rebuilt by `createScene`. -/
structure Scene where
  stars : List Star
  nebulas : List Nebula

/-- `createScene()` (part_001 lines 222–248): empties both arrays and refills
them with `starCount`/`nebulaCount` freshly drawn shapes. -/
def createScene (w h : Nat) (rngS rngN : Nat → ℚ) : Scene :=
  { stars := (List.range (starCount w h)).map (mkStar w h rngS)
    nebulas := (List.range (nebulaCount w h)).map (mkNebula w h rngN) }

/-- The state owned by part_001's canvas block: dimensions, the throttle
timestamp `lastResize`, and the scene. -/
structure GalaxyState where
  w : Nat
  h : Nat
  lastResize : Nat
  scene : Scene

/-- part_001's `resize()` handler: returns unchanged within 120 ms of the last
accepted resize, otherwise re-reads the element size and calls
`createScene`. -/
def galaxyResize (s : GalaxyState) (now offsetW offsetH : Nat) (rngS rngN : Nat → ℚ) :
    GalaxyState :=
  if now - s.lastResize < 120 then s
  else { w := offsetW, h := offsetH, lastResize := now,
         scene := createScene offsetW offsetH rngS rngN }

end Portfolio

namespace Portfolio

/- ============================================================
   Helper lemmas: reveal machinery
   ============================================================ -/

theorem observerStep_not_observed (e : RevealElem) (ev : Bool) (h : e.observed = false) :
    observerStep e ev = e := by
  simp [observerStep, h]

theorem runObserver_not_observed (e : RevealElem) (events : List Bool)
    (h : e.observed = false) : runObserver e events = e := by
  induction events with
  | nil => rfl
  | cons ev rest ih =>
    simp only [runObserver, List.foldl_cons] at *
    rw [observerStep_not_observed e ev h]
    exact ih

theorem countReveals_not_observed (e : RevealElem) (events : List Bool)
    (h : e.observed = false) : countReveals e events = 0 := by
  induction events with
  | nil => rfl
  | cons ev rest ih =>
    simp only [countReveals, observerStep_not_observed e ev h]
    simp [ih]

theorem runObserver_cons (e : RevealElem) (ev : Bool) (rest : List Bool) :
    runObserver e (ev :: rest) = runObserver (observerStep e ev) rest := by
  simp [runObserver]

theorem runReveal_cons (e : RevealElem2) (ev : Bool) (rest : List Bool) :
    runReveal e (ev :: rest) = runReveal (revealStep e ev) rest := by
  simp [runReveal]

theorem revealStep_not_observed (e : RevealElem2) (ev : Bool) (h : e.observed = false) :
    revealStep e ev = e := by
  simp [revealStep, h]

theorem runReveal_not_observed (e : RevealElem2) (events : List Bool)
    (h : e.observed = false) : runReveal e events = e := by
  induction events with
  | nil => rfl
  | cons ev rest ih =>
    rw [runReveal_cons, revealStep_not_observed e ev h]
    exact ih

theorem runObserver_initElem (events : List Bool) :
    runObserver initElem events =
      if true ∈ events then { revealed := true, observed := false } else initElem := by
  induction events with
  | nil => rfl
  | cons ev rest ih =>
    cases ev with
    | true =>
      rw [runObserver_cons]
      have h1 : observerStep initElem true = { revealed := true, observed := false } := rfl
      rw [h1, runObserver_not_observed _ _ rfl]
      simp
    | false =>
      rw [runObserver_cons]
      have h1 : observerStep initElem false = initElem := rfl
      rw [h1, ih]
      simp

/- ============================================================
   Claim theorems C1, C3, C4, C7
   ============================================================ -/

/-- C1: once an element registered by the reveal machinery receives an
intersecting observer entry, it is revealed, it stops being observed, the
transition into the revealed state happens exactly once along the whole trace,
and no later entries ever take the revealed state away.  The first four
conjuncts cover `ScrollReveal.initObserver` (script.js); the last three cover
part_001's `initReveal` (revealed = `opacity 1`, `translateY(0)`). -/
theorem scrollReveal_reveals_once (events : List Bool) (h : true ∈ events) :
    (runObserver initElem events).revealed = true ∧
    (runObserver initElem events).observed = false ∧
    countReveals initElem events = 1 ∧
    (∀ later : List Bool, (runObserver (runObserver initElem events) later).revealed = true) ∧
    (runReveal initElem2 events).opacity = 1 ∧
    (runReveal initElem2 events).observed = false ∧
    (∀ later : List Bool, (runReveal (runReveal initElem2 events) later).opacity = 1) := by
  induction events with
  | nil => cases h
  | cons ev rest ih =>
    cases ev with
    | true =>
      have hobs : observerStep initElem true = { revealed := true, observed := false } := rfl
      have hrev : revealStep initElem2 true = { opacity := 1, translateY := 0, observed := false } := rfl
      have hrun : runObserver initElem (true :: rest) = { revealed := true, observed := false } := by
        rw [runObserver_cons, hobs, runObserver_not_observed _ _ rfl]
      have hrun2 : runReveal initElem2 (true :: rest) =
          { opacity := 1, translateY := 0, observed := false } := by
        rw [runReveal_cons, hrev, runReveal_not_observed _ _ rfl]
      refine ⟨by rw [hrun], by rw [hrun], ?_, ?_, by rw [hrun2], by rw [hrun2], ?_⟩
      · simp only [countReveals, hobs]
        rw [countReveals_not_observed _ _ rfl]
        decide
      · intro later
        rw [hrun, runObserver_not_observed _ _ rfl]
      · intro later
        rw [hrun2, runReveal_not_observed _ _ rfl]
    | false =>
      have hmem : true ∈ rest := by simpa using h
      have hobs : observerStep initElem false = initElem := rfl
      have hrev : revealStep initElem2 false = initElem2 := rfl
      obtain ⟨c1, c2, c3, c4, c5, c6, c7⟩ := ih hmem
      refine ⟨?_, ?_, ?_, ?_, ?_, ?_, ?_⟩
      · rw [runObserver_cons, hobs]; exact c1
      · rw [runObserver_cons, hobs]; exact c2
      · simp only [countReveals, hobs]
        simpa using c3
      · intro later; rw [runObserver_cons, hobs]; exact c4 later
      · rw [runReveal_cons, hrev]; exact c5
      · rw [runReveal_cons, hrev]; exact c6
      · intro later; rw [runReveal_cons, hrev]; exact c7 later

/-- Witness for C1 at the concrete trace [false, true, false]. -/
theorem scrollReveal_reveals_once_witness :
    true ∈ [false, true, false] ∧ countReveals initElem [false, true, false] = 1 :=
  ⟨by decide, (scrollReveal_reveals_once [false, true, false] (by decide)).2.2.1⟩

/-- C3 counterexample: with the OS signalling reduced motion, an
IntersectionObserver available and one `.reveal` element, `ScrollReveal.init`
still takes the observer path; the freshly registered element is not revealed,
and it stays unrevealed while no intersection is reported — the code does not
degrade to revealing immediately. -/
theorem reducedMotion_cex :
    scrollRevealInit ⟨true, true, 1⟩ = RevealMode.observer ∧
    initElem.revealed = false ∧
    (runObserver initElem [false]).revealed = false := by
  decide

/-- C3 amended: the scroll-reveal code never consults the reduced-motion
preference — initialization behaves identically whether or not the OS signals
reduced motion — and a registered element becomes revealed only when an
intersecting observer entry arrives, never immediately. -/
theorem reducedMotion_not_consulted (rm io : Bool) (n : Nat) (events : List Bool) :
    scrollRevealInit ⟨rm, io, n⟩ = scrollRevealInit ⟨false, io, n⟩ ∧
    runObserver initElem events =
      (if true ∈ events then { revealed := true, observed := false } else initElem) := by
  exact ⟨rfl, runObserver_initElem events⟩

/-- C4 counterexample: with `#scrollArrow` absent, the part_000 scroll-arrow
setup throws a TypeError instead of short-circuiting silently. -/
theorem missing_dom_cex :
    scrollArrowSetup false = SetupOutcome.typeError ∧
    scrollArrowSetup false ≠ SetupOutcome.skipped := by
  decide

/-- C4 amended: features in script.js null-check their root elements and
return early when they are absent (`Navigation.init` skips when `#mainNav` is
missing), but part_000's scroll-arrow wiring performs no null check and throws
a TypeError when `#scrollArrow` is absent. -/
theorem missing_dom_amended :
    navigationInit false = SetupOutcome.skipped ∧
    navigationInit true = SetupOutcome.wired ∧
    scrollArrowSetup false = SetupOutcome.typeError ∧
    scrollArrowSetup true = SetupOutcome.wired := by
  decide

/-- C7: every `Navigation.toggleMenu` call flips the menu-open flag and sets
`aria-expanded` to exactly the new flag value, so `aria-expanded` matches the
menu-open state after every call, and two consecutive toggles restore the
original menu-open flag and both `active` classes. -/
theorem toggleMenu_aria_consistent (s : NavState) :
    (toggleMenu s).isMenuOpen = !s.isMenuOpen ∧
    (toggleMenu s).ariaExpanded = (toggleMenu s).isMenuOpen ∧
    (toggleMenu (toggleMenu s)).isMenuOpen = s.isMenuOpen ∧
    (toggleMenu (toggleMenu s)).toggleActive = s.toggleActive ∧
    (toggleMenu (toggleMenu s)).linksActive = s.linksActive := by
  simp [toggleMenu]

/- ============================================================
   Helper lemmas: project rendering
   ============================================================ -/

theorem renderProjects_ne_nil (list : List Project) (h : list ≠ []) :
    renderProjects list =
      some ((List.range (max 9 list.length)).map fun i =>
        buildCard (list.get ⟨i % list.length, Nat.mod_lt i (List.length_pos.mpr h)⟩)) := by
  rw [renderProjects, dif_neg h]

theorem renderProjects_some_length (list : List Project) (h : list ≠ []) :
    ∃ cards, renderProjects list = some cards ∧ cards.length = max 9 list.length := by
  refine ⟨_, renderProjects_ne_nil list h, ?_⟩
  simp

/- ============================================================
   Claim theorems C2, C8, C5
   ============================================================ -/

/-- C2: when the fetch or JSON parse of projects.json fails, the grid is
rendered from the inlined four-project fallback array, and the load chain
still produces a grid (the rejection is absorbed by the catch handler rather
than propagating). -/
theorem fetch_failure_fallback (r : FetchResult) (h : r = FetchResult.failure) :
    loadProjects r = renderProjects fallback ∧
    fallback.length = 4 ∧
    ∃ cards, loadProjects r = some cards ∧ cards.length = 9 := by
  subst h
  have hne : fallback ≠ [] := by simp [fallback]
  refine ⟨rfl, rfl, ?_⟩
  obtain ⟨cards, hc, hl⟩ := renderProjects_some_length fallback hne
  exact ⟨cards, hc, hl.trans rfl⟩

/-- Witness for C2 at the failing fetch result. -/
theorem fetch_failure_fallback_witness :
    loadProjects FetchResult.failure = renderProjects fallback ∧
    fallback.length = 4 ∧
    ∃ cards, loadProjects FetchResult.failure = some cards ∧ cards.length = 9 :=
  fetch_failure_fallback FetchResult.failure rfl

/-- C8: for a non-empty project list, `renderProjects` replaces the grid with
exactly `max 9 list.length` cards, the i-th built from `list[i % list.length]`;
for the empty list the card-building loop throws (modelled as `none`). -/
theorem renderProjects_grid_spec (list : List Project) (h : list ≠ []) :
    (∃ cards, renderProjects list = some cards ∧
      cards.length = max 9 list.length ∧
      ∀ (i : Nat) (hi : i < cards.length) (hm : i % list.length < list.length),
        cards.get ⟨i, hi⟩ = buildCard (list.get ⟨i % list.length, hm⟩)) ∧
    renderProjects ([] : List Project) = none := by
  refine ⟨⟨_, renderProjects_ne_nil list h, ?_, ?_⟩, rfl⟩
  · simp
  · intro i hi hm
    simp [List.get_eq_getElem, List.getElem_map, List.getElem_range]

/-- Witness for C8 at a concrete singleton project list. -/
theorem renderProjects_grid_spec_witness :
    (∃ cards, renderProjects [⟨"p", "T", "D", "X", "", ""⟩] = some cards ∧
      cards.length = max 9 ([⟨"p", "T", "D", "X", "", ""⟩] : List Project).length ∧
      ∀ (i : Nat) (hi : i < cards.length)
        (hm : i % ([⟨"p", "T", "D", "X", "", ""⟩] : List Project).length <
          ([⟨"p", "T", "D", "X", "", ""⟩] : List Project).length),
        cards.get ⟨i, hi⟩ =
          buildCard (([⟨"p", "T", "D", "X", "", ""⟩] : List Project).get
            ⟨i % ([⟨"p", "T", "D", "X", "", ""⟩] : List Project).length, hm⟩)) ∧
    renderProjects ([] : List Project) = none :=
  renderProjects_grid_spec [⟨"p", "T", "D", "X", "", ""⟩] (by simp)

/-- C5: against any environment whose `localStorage` primitives throw,
`Utils.storage.set` and `Utils.storage.remove` return `false` and
`Utils.storage.get` returns the caller-supplied default; the wrappers are
total functions into `Bool`/the value type, so no exception escapes them. -/
theorem storage_swallows_errors {α : Type} (env : StorageEnv α) (k : String) (v d : α)
    (hset : ∀ s, ∃ e, env.setItem k s = Except.error e)
    (hget : ∃ e, env.getItem k = Except.error e)
    (hrem : ∃ e, env.removeItem k = Except.error e) :
    storageSet env k v = false ∧ storageGet env k d = d ∧ storageRemove env k = false := by
  refine ⟨?_, ?_, ?_⟩
  · cases hs : env.stringify v with
    | error e => simp [storageSet, hs]
    | ok s =>
      obtain ⟨e, he⟩ := hset s
      simp [storageSet, hs, he]
  · obtain ⟨e, he⟩ := hget
    simp [storageGet, he]
  · obtain ⟨e, he⟩ := hrem
    simp [storageRemove, he]

/-- Witness for C5 against the all-throwing environment. -/
theorem storage_swallows_errors_witness :
    storageSet failingStorage "theme" 7 = false ∧
    storageGet failingStorage "theme" 7 = 7 ∧
    storageRemove failingStorage "theme" = false :=
  storage_swallows_errors failingStorage "theme" 7 7
    (fun _ => ⟨"QuotaExceededError", rfl⟩) ⟨"SecurityError", rfl⟩ ⟨"SecurityError", rfl⟩

/- ============================================================
   Helper lemmas: HTML escaping
   ============================================================ -/

theorem beginsWith_self_append (l r : List Char) : beginsWith l (l ++ r) = true := by
  induction l with
  | nil => rfl
  | cons a as ih => simp [beginsWith, ih]

theorem escChar_no_raw (a c : Char) (hc : c ∈ escChar a) :
    c ≠ '<' ∧ c ≠ '>' ∧ c ≠ quoteChar ∧ c ≠ aposChar := by
  unfold escChar at hc
  split_ifs at hc with h1 h2 h3 h4 h5
  · rw [show "&amp;".data = ['&', 'a', 'm', 'p', ';'] from rfl] at hc
    fin_cases hc <;> decide
  · rw [show "&lt;".data = ['&', 'l', 't', ';'] from rfl] at hc
    fin_cases hc <;> decide
  · rw [show "&gt;".data = ['&', 'g', 't', ';'] from rfl] at hc
    fin_cases hc <;> decide
  · rw [show "&quot;".data = ['&', 'q', 'u', 'o', 't', ';'] from rfl] at hc
    fin_cases hc <;> decide
  · rw [show "&#39;".data = ['&', '#', '3', '9', ';'] from rfl] at hc
    fin_cases hc <;> decide
  · simp only [List.mem_singleton] at hc
    subst hc
    exact ⟨h2, h3, h4, h5⟩

theorem ampWF_escChar_append (c : Char) (rest : List Char) (h : ampWF rest = true) :
    ampWF (escChar c ++ rest) = true := by
  unfold escChar
  split_ifs with h1 h2 h3 h4 h5
  · show ampWF ('&' :: 'a' :: 'm' :: 'p' :: ';' :: rest) = true
    simp [ampWF, startsEntity, beginsWith, h]
  · show ampWF ('&' :: 'l' :: 't' :: ';' :: rest) = true
    simp [ampWF, startsEntity, beginsWith, h]
  · show ampWF ('&' :: 'g' :: 't' :: ';' :: rest) = true
    simp [ampWF, startsEntity, beginsWith, h]
  · show ampWF ('&' :: 'q' :: 'u' :: 'o' :: 't' :: ';' :: rest) = true
    simp [ampWF, startsEntity, beginsWith, h]
  · show ampWF ('&' :: '#' :: '3' :: '9' :: ';' :: rest) = true
    simp [ampWF, startsEntity, beginsWith, h]
  · show ampWF (c :: rest) = true
    simp [ampWF, h1, h]

theorem ampWF_flatMap (l : List Char) : ampWF (l.flatMap escChar) = true := by
  induction l with
  | nil => rfl
  | cons c rest ih =>
    rw [List.flatMap_cons]
    exact ampWF_escChar_append c _ ih

theorem ampWF_split (pre post l : List Char) (hWF : ampWF l = true)
    (heq : l = pre ++ '&' :: post) : startsEntity post = true := by
  induction pre generalizing l with
  | nil =>
    subst heq
    simp only [List.nil_append, ampWF, if_pos, Bool.and_eq_true] at hWF
    exact hWF.1
  | cons a pre ih =>
    subst heq
    simp only [List.cons_append, ampWF, Bool.and_eq_true] at hWF
    exact ih _ hWF.2 rfl

/- ============================================================
   Claim theorem C9
   ============================================================ -/

/-- C9: `escapeHtml` output contains no raw `<`, `>`, double-quote or
single-quote character; every ampersand in the output immediately begins one
of the entity encodings `&amp;`, `&lt;`, `&gt;`, `&quot;`, `&#39;`
(`startsEntity` checks the tail after the `&`); and a JS `null`/`undefined`
input yields the empty string. -/
theorem escapeHtml_escapes (s : Option String) :
    (∀ c ∈ (escapeHtml s).data, c ≠ '<' ∧ c ≠ '>' ∧ c ≠ quoteChar ∧ c ≠ aposChar) ∧
    (∀ pre post, (escapeHtml s).data = pre ++ '&' :: post → startsEntity post = true) ∧
    escapeHtml none = "" := by
  refine ⟨?_, ?_, rfl⟩
  · cases s with
    | none =>
      intro c hc
      rw [show (escapeHtml none).data = ([] : List Char) from rfl] at hc
      cases hc
    | some str =>
      intro c hc
      rw [show (escapeHtml (some str)).data = str.data.flatMap escChar from rfl,
        List.mem_flatMap] at hc
      obtain ⟨a, _, ha⟩ := hc
      exact escChar_no_raw a c ha
  · cases s with
    | none =>
      intro pre post h
      rw [show (escapeHtml none).data = ([] : List Char) from rfl] at h
      simp at h
    | some str =>
      intro pre post h
      exact ampWF_split pre post _ (ampWF_flatMap str.data) h

/-- Witness for C9: the ampersand produced by escaping `"&"` is followed by
the `amp;` entity tail. -/
theorem escapeHtml_escapes_witness : startsEntity ['a', 'm', 'p', ';'] = true :=
  (escapeHtml_escapes (some "&")).2.1 [] ['a', 'm', 'p', ';'] rfl

/- ============================================================
   Claim theorems C6
   ============================================================ -/

/-- C6 counterexample: the script.js particle layer does not behave as
claimed — the debounced resize handler leaves `STATE.particles` untouched
(no regeneration), and the particle count is the constant
`CONFIG.PARTICLE_COUNT = 50` for a 100×100 canvas and a 2000×2000 canvas
alike, so it is not proportional to the canvas area. -/
theorem canvas_regen_cex :
    (particlesOnResize (initParticles ⟨100, 100⟩ fun _ => 0) ⟨2000, 2000⟩).particles =
      (initParticles ⟨100, 100⟩ fun _ => 0).particles ∧
    (initParticles ⟨100, 100⟩ fun _ => 0).particles.length = 50 ∧
    (initParticles ⟨2000, 2000⟩ fun _ => 0).particles.length = 50 := by
  refine ⟨rfl, ?_, ?_⟩ <;> simp [initParticles, PARTICLE_COUNT]

/-- C6 amended: part_001's `createScene` regenerates the stars and nebulas on
load and on each resize accepted by the 120 ms throttle, with counts
`max 80 ⌊area/9000⌋` and `max 3 ⌊area/200000⌋` scaling with the canvas area;
the script.js particle layer instead creates a fixed `PARTICLE_COUNT = 50`
particles once at load, and its debounced resize handler only resizes the
canvas, leaving the particle set unchanged. -/
theorem canvas_regen_amended (w h : Nat) (rngS rngN rng : Nat → ℚ) (c viewport : Canvas)
    (sys : ParticleSystem) (s : GalaxyState) (w2 h2 : Nat) :
    (createScene w h rngS rngN).stars.length = max 80 (w * h / 9000) ∧
    (createScene w h rngS rngN).nebulas.length = max 3 (w * h / 200000) ∧
    galaxyResize s (s.lastResize + 120) w2 h2 rngS rngN =
      ⟨w2, h2, s.lastResize + 120, createScene w2 h2 rngS rngN⟩ ∧
    (initParticles c rng).particles.length = PARTICLE_COUNT ∧
    particlesOnResize sys viewport = ⟨viewport, sys.particles⟩ := by
  refine ⟨?_, ?_, ?_, ?_, rfl⟩
  · simp [createScene, starCount]
  · simp [createScene, nebulaCount]
  · simp [galaxyResize]
  · simp [initParticles]

/- ============================================================
   Helper lemmas: particle bounds
   ============================================================ -/

theorem clamp_mem (v lo hi : ℚ) (h : lo ≤ hi) : lo ≤ clamp v lo hi ∧ clamp v lo hi ≤ hi :=
  ⟨le_min (le_max_right v lo) h, min_le_right _ _⟩

theorem jsRandom_mem (r lo hi : ℚ) (h0 : 0 ≤ r) (h1 : r < 1) (hle : lo ≤ hi) :
    lo ≤ jsRandom r lo hi ∧ jsRandom r lo hi ≤ hi := by
  unfold jsRandom
  constructor
  · nlinarith [mul_nonneg h0 (sub_nonneg.mpr hle)]
  · nlinarith [mul_nonneg (sub_nonneg.mpr h1.le) (sub_nonneg.mpr hle)]

theorem particleUpdate_inBounds (c : Canvas) (p : Particle) (hw : 0 ≤ c.width)
    (hh : 0 ≤ c.height) : inBounds c (particleUpdate p c) := by
  unfold particleUpdate inBounds
  dsimp only
  exact ⟨(clamp_mem _ _ _ hw).1, (clamp_mem _ _ _ hw).2,
    (clamp_mem _ _ _ hh).1, (clamp_mem _ _ _ hh).2⟩

theorem particleReset_inBounds (c : Canvas) (hw : 0 ≤ c.width) (hh : 0 ≤ c.height)
    (r1 r2 r3 r4 r5 r6 : ℚ) (h1 : 0 ≤ r1) (h1' : r1 < 1) (h2 : 0 ≤ r2) (h2' : r2 < 1) :
    inBounds c (particleReset c r1 r2 r3 r4 r5 r6) := by
  unfold particleReset inBounds
  dsimp only
  obtain ⟨a1, a2⟩ := jsRandom_mem r1 0 c.width h1 h1' hw
  obtain ⟨b1, b2⟩ := jsRandom_mem r2 0 c.height h2 h2' hh
  exact ⟨a1, a2, b1, b2⟩

/- ============================================================
   Claim theorem C10
   ============================================================ -/

/-- C10: with `Math.random()` draws in `[0, 1)` for the position components
and nonnegative canvas dimensions, a particle is inside the canvas after
`Particle.reset`; every `Particle.update` call (from any state) clamps the
position back into bounds; hence the in-bounds invariant holds after every
animation step for the same canvas. -/
theorem particle_stays_in_bounds (c : Canvas) (hw : 0 ≤ c.width) (hh : 0 ≤ c.height)
    (r1 r2 r3 r4 r5 r6 : ℚ) (h1 : 0 ≤ r1) (h1' : r1 < 1) (h2 : 0 ≤ r2) (h2' : r2 < 1) :
    inBounds c (particleReset c r1 r2 r3 r4 r5 r6) ∧
    (∀ p : Particle, inBounds c (particleUpdate p c)) ∧
    (∀ n : Nat,
      inBounds c ((fun q => particleUpdate q c)^[n] (particleReset c r1 r2 r3 r4 r5 r6))) := by
  refine ⟨particleReset_inBounds c hw hh r1 r2 r3 r4 r5 r6 h1 h1' h2 h2',
    fun p => particleUpdate_inBounds c p hw hh, ?_⟩
  intro n
  cases n with
  | zero => exact particleReset_inBounds c hw hh r1 r2 r3 r4 r5 r6 h1 h1' h2 h2'
  | succ m =>
    rw [Function.iterate_succ_apply']
    exact particleUpdate_inBounds c _ hw hh

/-- Witness for C10 on a 100×100 canvas with all draws at 1/2. -/
theorem particle_stays_in_bounds_witness :
    (0 : ℚ) ≤ 100 ∧ (0 : ℚ) ≤ 1 / 2 ∧ (1 / 2 : ℚ) < 1 ∧
    inBounds ⟨100, 100⟩
      (particleReset ⟨100, 100⟩ (1 / 2) (1 / 2) (1 / 2) (1 / 2) (1 / 2) (1 / 2)) :=
  ⟨by norm_num, by norm_num, by norm_num,
    (particle_stays_in_bounds ⟨100, 100⟩ (by norm_num) (by norm_num)
      (1 / 2) (1 / 2) (1 / 2) (1 / 2) (1 / 2) (1 / 2)
      (by norm_num) (by norm_num) (by norm_num) (by norm_num)).1⟩

end Portfolio
